import Mathlib

/-
Verification of the inventory/order HTTP service in `main.py`.

The service keeps two in-memory mappings (products and orders), validates
incoming JSON payloads with `validate_product` / `validate_order`, and
mutates the mappings in the handlers `add_product`, `remove_product`,
`place_order`, `cancel_order`, `list_products`, `list_orders`.

Shallow embedding choices:
- Python/JSON values become the inductive type `PyVal`.  Python floats are
  modelled as rationals (only their ordering against 0 matters here).
  Python `bool` is a subclass of `int`, so `isinstance(x, int)` and
  `isinstance(x, (int, float))` accept booleans; the predicates
  `isIntInstance` / `isNumInstance` reproduce that.
- Python dicts become association lists with string keys; `d[k] = v`
  becomes `dictInsert` (update in place if the key exists, append
  otherwise, matching insertion-order semantics) and `del d[k]` becomes
  `dictErase`.
- The global `products`/`orders` dicts become an explicit `Store` record
  threaded through the handlers.
- `uuid.uuid4()` becomes an explicit `newId` argument; the spec treats
  collisions as impossible, so freshness is a hypothesis where needed.
- A handler result is `(new store, status code, response body)`.
-/

namespace OrderProcessing

/-- A Python/JSON runtime value, as far as the service inspects it. -/
inductive PyVal : Type where
  | none
  | bool (b : Bool)
  | int (n : Int)
  | float (q : ℚ)
  | str (s : String)
  | list (xs : List PyVal)
  | dict (entries : List (String × PyVal))

/-- `k in d` for a dict modelled as an association list. -/
def hasKey (es : List (String × PyVal)) (k : String) : Bool :=
  es.any (fun e => e.1 == k)

/-- Subscript access `p[k]`; the handlers only evaluate it after the
membership check, so the `.none` default is never observed. -/
def pyGet (p : PyVal) (k : String) : PyVal :=
  match p with
  | .dict es => (es.lookup k).getD .none
  | _ => .none

/-- `isinstance(x, (int, float))`.  Python booleans are ints. -/
def isNumInstance : PyVal → Bool
  | .int _ => true
  | .float _ => true
  | .bool _ => true
  | _ => false

/-- `isinstance(x, int)`.  Python booleans are ints. -/
def isIntInstance : PyVal → Bool
  | .int _ => true
  | .bool _ => true
  | _ => false

/-- Numeric value used in the comparisons with `0`
(`True` counts as 1, `False` as 0). -/
def pyNumVal : PyVal → ℚ
  | .int n => (n : ℚ)
  | .float q => q
  | .bool b => if b then 1 else 0
  | _ => 0

/-- The characters removed by Python `str.strip()`: everything the CPython
`Py_UNICODE_ISSPACE` table marks as whitespace — U+0009 to U+000D, U+001C to
U+001F, U+0020, U+0085, U+00A0, U+1680, U+2000 to U+200A, U+2028, U+2029,
U+202F, U+205F and U+3000. -/
def pyIsSpace (c : Char) : Bool :=
  (0x09 ≤ c.val && c.val ≤ 0x0d) ||
  (0x1c ≤ c.val && c.val ≤ 0x1f) ||
  c.val == 0x20 || c.val == 0x85 || c.val == 0xa0 || c.val == 0x1680 ||
  (0x2000 ≤ c.val && c.val ≤ 0x200a) ||
  c.val == 0x2028 || c.val == 0x2029 || c.val == 0x202f ||
  c.val == 0x205f || c.val == 0x3000

/-- Python `s.strip()`: drop leading and trailing whitespace. -/
def pyStrip (s : String) : String :=
  String.mk (((s.data.dropWhile pyIsSpace).reverse.dropWhile pyIsSpace).reverse)

/-- Line 20: `isinstance(product, dict) and all(field in product for field
in ('name', 'price'))`. -/
def prodStructOk : PyVal → Bool
  | .dict es => hasKey es "name" && hasKey es "price"
  | _ => false

/-- Line 22 (negated): `isinstance(name, str) and name.strip()` — the
stripped string must be non-empty (truthy). -/
def nameOk : PyVal → Bool
  | .str s => !(pyStrip s == "")
  | _ => false

/-- Line 24 (negated): `isinstance(price, (int, float)) and price > 0`. -/
def priceOk (v : PyVal) : Bool :=
  isNumInstance v && decide (0 < pyNumVal v)

/-- `validate_product` (main.py lines 15-25); `some msg` models raising
`InvalidInputError(msg)`, `none` models passing. -/
def validate_product (product : PyVal) : Option String :=
  if !(prodStructOk product) then
    some "Product must be a dictionary with 'name' and 'price' fields"
  else if !(nameOk (pyGet product "name")) then
    some "Product name must be a non-empty string"
  else if !(priceOk (pyGet product "price")) then
    some "Product price must be a positive number"
  else
    Option.none

/-- Line 32: `isinstance(order, dict) and all(field in order for field in
('product_id', 'quantity'))`. -/
def orderStructOk : PyVal → Bool
  | .dict es => hasKey es "product_id" && hasKey es "quantity"
  | _ => false

/-- Line 34 (negated): `isinstance(product_id, str) and product_id in
products` — note this reads the product mapping. -/
def productIdOk (prods : List (String × PyVal)) : PyVal → Bool
  | .str s => hasKey prods s
  | _ => false

/-- Line 36 (negated): `isinstance(quantity, int) and quantity > 0`. -/
def quantityOk (v : PyVal) : Bool :=
  isIntInstance v && decide (0 < pyNumVal v)

/-- `validate_order` (main.py lines 27-37); takes the current product
mapping, which line 34 reads. -/
def validate_order (prods : List (String × PyVal)) (order : PyVal) : Option String :=
  if !(orderStructOk order) then
    some "Order must be a dictionary with 'product_id' and 'quantity' fields"
  else if !(productIdOk prods (pyGet order "product_id")) then
    some "Invalid product ID"
  else if !(quantityOk (pyGet order "quantity")) then
    some "Order quantity must be a positive integer"
  else
    Option.none

/-- The two process-wide mappings (main.py lines 8-9). -/
structure Store where
  products : List (String × PyVal)
  orders : List (String × PyVal)

/-- `d[k] = v`: replace in place if `k` is present, else append. -/
def dictInsert (es : List (String × PyVal)) (k : String) (v : PyVal) :
    List (String × PyVal) :=
  if hasKey es k then es.map (fun e => if e.1 == k then (k, v) else e)
  else es ++ [(k, v)]

/-- `del d[k]`. -/
def dictErase (es : List (String × PyVal)) (k : String) :
    List (String × PyVal) :=
  es.filter (fun e => !(e.1 == k))

/-- JSON error body `{"error": e}`. -/
def errBody (e : String) : PyVal := .dict [("error", .str e)]

/-- JSON success body `{"message": m}`. -/
def msgBody (m : String) : PyVal := .dict [("message", .str m)]

/-- `add_product` handler (main.py lines 39-52), with the generated UUID
passed in as `newId`. -/
def add_product (st : Store) (newId : String) (payload : PyVal) :
    Store × Nat × PyVal :=
  match validate_product payload with
  | some e => (st, 400, errBody e)
  | Option.none =>
      ({ st with products := dictInsert st.products newId payload },
       201,
       .dict [("message", .str "Product added successfully"),
              ("product_id", .str newId)])

/-- `remove_product` handler (main.py lines 54-60).  The path parameter is
always a string, so the `isinstance` guard on line 57 holds. -/
def remove_product (st : Store) (product_id : String) : Store × Nat × PyVal :=
  if hasKey st.products product_id then
    ({ st with products := dictErase st.products product_id },
     200, msgBody "Product removed successfully")
  else
    (st, 404, errBody "Product not found")

/-- `place_order` handler (main.py lines 62-75). -/
def place_order (st : Store) (newId : String) (payload : PyVal) :
    Store × Nat × PyVal :=
  match validate_order st.products payload with
  | some e => (st, 400, errBody e)
  | Option.none =>
      ({ st with orders := dictInsert st.orders newId payload },
       201,
       .dict [("message", .str "Order placed successfully"),
              ("order_id", .str newId)])

/-- `cancel_order` handler (main.py lines 77-83). -/
def cancel_order (st : Store) (order_id : String) : Store × Nat × PyVal :=
  if hasKey st.orders order_id then
    ({ st with orders := dictErase st.orders order_id },
     200, msgBody "Order cancelled successfully")
  else
    (st, 404, errBody "Order not found")

/-- `list_products` handler (main.py lines 85-88). -/
def list_products (st : Store) : Nat × PyVal := (200, .dict st.products)

/-- `list_orders` handler (main.py lines 90-93). -/
def list_orders (st : Store) : Nat × PyVal := (200, .dict st.orders)

/- ## Association-list lemmas -/

theorem hasKey_of_lookup {es : List (String × PyVal)} {k : String} {v : PyVal}
    (h : es.lookup k = some v) : hasKey es k = true := by
  induction es with
  | nil => simp [List.lookup] at h
  | cons e es ih =>
      simp only [List.lookup] at h
      by_cases hk : k == e.1
      · simp [hasKey, List.any_cons, beq_iff_eq] at hk ⊢
        exact Or.inl hk.symm
      · simp [hk] at h
        simp [hasKey, List.any_cons] at ih ⊢
        exact Or.inr (ih h)

theorem lookup_append_fresh {es : List (String × PyVal)} {k : String}
    {v : PyVal} (h : hasKey es k = false) :
    (es ++ [(k, v)]).lookup k = some v := by
  induction es with
  | nil => simp [List.lookup]
  | cons e es ih =>
      simp only [hasKey, List.any_cons, Bool.or_eq_false_iff] at h
      have hne : (k == e.1) = false :=
        beq_eq_false_iff_ne.mpr fun hkk => (beq_eq_false_iff_ne.mp h.1) hkk.symm
      simp only [List.cons_append, List.lookup, hne]
      exact ih h.2

theorem lookup_dictInsert_fresh {es : List (String × PyVal)} {k : String}
    {v : PyVal} (h : hasKey es k = false) :
    (dictInsert es k v).lookup k = some v := by
  simp [dictInsert, h, lookup_append_fresh h]

theorem lookup_dictErase_self (es : List (String × PyVal)) (k : String) :
    (dictErase es k).lookup k = Option.none := by
  induction es with
  | nil => rfl
  | cons e es ih =>
      by_cases hk : e.1 = k
      · have hbe : (e.1 == k) = true := by simp [beq_iff_eq, hk]
        simpa only [dictErase, List.filter_cons, hbe, Bool.not_true,
          Bool.false_eq_true, if_false] using ih
      · have hbe : (e.1 == k) = false := by simp [beq_iff_eq, hk]
        have hbe' : (k == e.1) = false :=
          beq_eq_false_iff_ne.mpr fun hkk => hk hkk.symm
        simp only [dictErase, List.filter_cons, hbe, Bool.not_false, if_true]
        simp only [List.lookup, hbe']
        exact ih

theorem lookup_dictErase_other {es : List (String × PyVal)} {k k' : String}
    (h : k' ≠ k) : (dictErase es k).lookup k' = es.lookup k' := by
  induction es with
  | nil => simp [dictErase]
  | cons e es ih =>
      by_cases hk : e.1 = k
      · have hbe : (e.1 == k) = true := by simp [beq_iff_eq, hk]
        have hbe' : (k' == e.1) = false := by
          simp [beq_iff_eq, hk]
          exact h
        simp [dictErase, List.filter, hbe] at ih ⊢
        simp [List.lookup, hbe', ih]
      · have hbe : (e.1 == k) = false := by simp [beq_iff_eq, hk]
        simp [dictErase, List.filter, hbe] at ih ⊢
        simp [List.lookup, ih]

theorem hasKey_dictErase_self (es : List (String × PyVal)) (k : String) :
    hasKey (dictErase es k) k = false := by
  induction es with
  | nil => simp [dictErase, hasKey]
  | cons e es ih =>
      by_cases hk : e.1 = k
      · have hbe : (e.1 == k) = true := by simp [beq_iff_eq, hk]
        simp [dictErase, List.filter, hbe] at ih ⊢
        exact ih
      · have hbe : (e.1 == k) = false := by simp [beq_iff_eq, hk]
        simp [dictErase, List.filter, hbe] at ih ⊢
        simp [hasKey, List.any_cons, hbe, ih]

/- ## Validator stage lemmas -/

theorem vp_fail_struct {p : PyVal} (h : prodStructOk p = false) :
    validate_product p =
      some "Product must be a dictionary with 'name' and 'price' fields" := by
  simp [validate_product, h]

theorem vp_fail_name {p : PyVal} (h1 : prodStructOk p = true)
    (h2 : nameOk (pyGet p "name") = false) :
    validate_product p = some "Product name must be a non-empty string" := by
  simp [validate_product, h1, h2]

theorem vp_fail_price {p : PyVal} (h1 : prodStructOk p = true)
    (h2 : nameOk (pyGet p "name") = true)
    (h3 : priceOk (pyGet p "price") = false) :
    validate_product p = some "Product price must be a positive number" := by
  simp [validate_product, h1, h2, h3]

theorem vp_pass {p : PyVal} (h1 : prodStructOk p = true)
    (h2 : nameOk (pyGet p "name") = true)
    (h3 : priceOk (pyGet p "price") = true) :
    validate_product p = Option.none := by
  simp [validate_product, h1, h2, h3]

theorem vo_fail_struct {prods : List (String × PyVal)} {o : PyVal}
    (h : orderStructOk o = false) :
    validate_order prods o =
      some "Order must be a dictionary with 'product_id' and 'quantity' fields" := by
  simp [validate_order, h]

theorem vo_fail_pid {prods : List (String × PyVal)} {o : PyVal}
    (h1 : orderStructOk o = true)
    (h2 : productIdOk prods (pyGet o "product_id") = false) :
    validate_order prods o = some "Invalid product ID" := by
  simp [validate_order, h1, h2]

theorem vo_fail_qty {prods : List (String × PyVal)} {o : PyVal}
    (h1 : orderStructOk o = true)
    (h2 : productIdOk prods (pyGet o "product_id") = true)
    (h3 : quantityOk (pyGet o "quantity") = false) :
    validate_order prods o = some "Order quantity must be a positive integer" := by
  simp [validate_order, h1, h2, h3]

theorem vo_pass {prods : List (String × PyVal)} {o : PyVal}
    (h1 : orderStructOk o = true)
    (h2 : productIdOk prods (pyGet o "product_id") = true)
    (h3 : quantityOk (pyGet o "quantity") = true) :
    validate_order prods o = Option.none := by
  simp [validate_order, h1, h2, h3]

/- ## Gate lemmas for valid payloads -/

theorem prodStructOk_of_lookup {es : List (String × PyVal)} {vn vp : PyVal}
    (hn : es.lookup "name" = some vn) (hp : es.lookup "price" = some vp) :
    prodStructOk (PyVal.dict es) = true := by
  simp [prodStructOk, hasKey_of_lookup hn, hasKey_of_lookup hp]

theorem pyGet_dict_of_lookup {es : List (String × PyVal)} {k : String}
    {v : PyVal} (h : es.lookup k = some v) : pyGet (PyVal.dict es) k = v := by
  simp [pyGet, h]

theorem nameOk_of_strip {nm : String} (h : pyStrip nm ≠ "") :
    nameOk (PyVal.str nm) = true := by
  simp [nameOk, beq_eq_false_iff_ne.mpr h]

theorem priceOk_of_pos {pr : PyVal} (hnum : isNumInstance pr = true)
    (hpos : 0 < pyNumVal pr) : priceOk pr = true := by
  simp [priceOk, hnum, hpos]

/- ## Claim theorems -/

/-- C1: for every product payload that is a record with fields `name` and
`price`, where `name` is text that is non-empty after stripping whitespace
and `price` is a number strictly greater than 0, `add_product` returns
status 201 with the fresh identifier (freshness of the generated UUID is
the `hfresh` hypothesis, per the spec collisions are impossible), and
afterwards `list_products` maps that identifier to exactly the submitted
record. -/
theorem add_product_valid_post (st : Store) (newId : String)
    (es : List (String × PyVal)) (nm : String) (pr : PyVal)
    (hfresh : hasKey st.products newId = false)
    (hname : es.lookup "name" = some (PyVal.str nm))
    (hnm : pyStrip nm ≠ "")
    (hprice : es.lookup "price" = some pr)
    (hnum : isNumInstance pr = true)
    (hpos : 0 < pyNumVal pr) :
    (add_product st newId (PyVal.dict es)).2.1 = 201 ∧
    (add_product st newId (PyVal.dict es)).2.2 =
      PyVal.dict [("message", PyVal.str "Product added successfully"),
                  ("product_id", PyVal.str newId)] ∧
    ∃ m, (list_products (add_product st newId (PyVal.dict es)).1).2 =
        PyVal.dict m ∧
      m.lookup newId = some (PyVal.dict es) := by
  have h2 : nameOk (pyGet (PyVal.dict es) "name") = true := by
    rw [pyGet_dict_of_lookup hname]; exact nameOk_of_strip hnm
  have h3 : priceOk (pyGet (PyVal.dict es) "price") = true := by
    rw [pyGet_dict_of_lookup hprice]; exact priceOk_of_pos hnum hpos
  have hv : validate_product (PyVal.dict es) = Option.none :=
    vp_pass (prodStructOk_of_lookup hname hprice) h2 h3
  refine ⟨?_, ?_, dictInsert st.products newId (PyVal.dict es), ?_,
    lookup_dictInsert_fresh hfresh⟩ <;>
    simp [add_product, hv, list_products]

/-- Witness for C1 at a concrete valid payload and empty store. -/
theorem add_product_valid_post_witness :
    (add_product ⟨[], []⟩ "id-1"
      (PyVal.dict [("name", PyVal.str "Widget"),
                   ("price", PyVal.int 10)])).2.1 = 201 ∧
    (add_product ⟨[], []⟩ "id-1"
      (PyVal.dict [("name", PyVal.str "Widget"),
                   ("price", PyVal.int 10)])).2.2 =
      PyVal.dict [("message", PyVal.str "Product added successfully"),
                  ("product_id", PyVal.str "id-1")] ∧
    ∃ m, (list_products (add_product ⟨[], []⟩ "id-1"
        (PyVal.dict [("name", PyVal.str "Widget"),
                     ("price", PyVal.int 10)])).1).2 = PyVal.dict m ∧
      m.lookup "id-1" =
        some (PyVal.dict [("name", PyVal.str "Widget"),
                          ("price", PyVal.int 10)]) :=
  add_product_valid_post ⟨[], []⟩ "id-1"
    [("name", PyVal.str "Widget"), ("price", PyVal.int 10)] "Widget"
    (PyVal.int 10) (by decide) rfl (by decide) rfl rfl (by decide)

/-- C2: for every payload that fails one of the three validation rules
(not a dict with both `name` and `price`; name not a string or
empty/whitespace-only after stripping; price not numeric or not positive),
`add_product` returns status 400 with that rule's fixed message and the
store is returned exactly unchanged. -/
theorem add_product_invalid_post (st : Store) (newId : String)
    (payload : PyVal) :
    (prodStructOk payload = false →
      add_product st newId payload =
        (st, 400,
         errBody "Product must be a dictionary with 'name' and 'price' fields")) ∧
    (prodStructOk payload = true →
      nameOk (pyGet payload "name") = false →
      add_product st newId payload =
        (st, 400, errBody "Product name must be a non-empty string")) ∧
    (prodStructOk payload = true →
      nameOk (pyGet payload "name") = true →
      priceOk (pyGet payload "price") = false →
      add_product st newId payload =
        (st, 400, errBody "Product price must be a positive number")) := by
  refine ⟨fun h1 => ?_, fun h1 h2 => ?_, fun h1 h2 h3 => ?_⟩
  · simp [add_product, vp_fail_struct h1]
  · simp [add_product, vp_fail_name h1 h2]
  · simp [add_product, vp_fail_price h1 h2 h3]

/-- Witness for C2: one concrete payload per violated rule, each
rejected with its fixed message and an unchanged store. -/
theorem add_product_invalid_post_witness :
    add_product ⟨[], []⟩ "id-2" (PyVal.int 7) =
      (⟨[], []⟩, 400,
       errBody "Product must be a dictionary with 'name' and 'price' fields") ∧
    add_product ⟨[], []⟩ "id-2"
        (PyVal.dict [("name", PyVal.str "   "), ("price", PyVal.int 5)]) =
      (⟨[], []⟩, 400, errBody "Product name must be a non-empty string") ∧
    add_product ⟨[], []⟩ "id-2"
        (PyVal.dict [("name", PyVal.str "W"), ("price", PyVal.int 0)]) =
      (⟨[], []⟩, 400, errBody "Product price must be a positive number") :=
  ⟨(add_product_invalid_post ⟨[], []⟩ "id-2" (PyVal.int 7)).1 (by decide),
   (add_product_invalid_post ⟨[], []⟩ "id-2"
      (PyVal.dict [("name", PyVal.str "   "), ("price", PyVal.int 5)])).2.1
      (by decide) (by decide),
   (add_product_invalid_post ⟨[], []⟩ "id-2"
      (PyVal.dict [("name", PyVal.str "W"), ("price", PyVal.int 0)])).2.2
      (by decide) (by decide) (by decide)⟩

/-- C3: for an order payload with both fields, a valid `product_id` and a
quantity failing the integer-and-positive check, `place_order` returns 400
with "Order quantity must be a positive integer" and an unchanged store;
with a `product_id` that is a key of the product mapping and an integer
quantity strictly greater than 0 it returns 201, and the order then
appears in `list_orders` under the fresh order identifier. -/
theorem place_order_quantity_post (st : Store) (newId : String)
    (es : List (String × PyVal)) :
    (orderStructOk (PyVal.dict es) = true →
      productIdOk st.products (pyGet (PyVal.dict es) "product_id") = true →
      quantityOk (pyGet (PyVal.dict es) "quantity") = false →
      place_order st newId (PyVal.dict es) =
        (st, 400, errBody "Order quantity must be a positive integer")) ∧
    (∀ pid q,
      es.lookup "product_id" = some (PyVal.str pid) →
      hasKey st.products pid = true →
      es.lookup "quantity" = some (PyVal.int q) →
      0 < q →
      hasKey st.orders newId = false →
      (place_order st newId (PyVal.dict es)).2.1 = 201 ∧
      ∃ m, (list_orders (place_order st newId (PyVal.dict es)).1).2 =
          PyVal.dict m ∧
        m.lookup newId = some (PyVal.dict es)) := by
  constructor
  · intro h1 h2 h3
    simp [place_order, vo_fail_qty h1 h2 h3]
  · intro pid q hpid hkey hq hqpos hfresh
    have h1 : orderStructOk (PyVal.dict es) = true := by
      simp [orderStructOk, hasKey_of_lookup hpid, hasKey_of_lookup hq]
    have h2 : productIdOk st.products (pyGet (PyVal.dict es) "product_id") = true := by
      rw [pyGet_dict_of_lookup hpid]; simpa [productIdOk] using hkey
    have h3 : quantityOk (pyGet (PyVal.dict es) "quantity") = true := by
      rw [pyGet_dict_of_lookup hq]
      have : (0 : ℚ) < (q : ℚ) := by exact_mod_cast hqpos
      simp [quantityOk, isIntInstance, pyNumVal, this]
    have hv : validate_order st.products (PyVal.dict es) = Option.none :=
      vo_pass h1 h2 h3
    refine ⟨?_, dictInsert st.orders newId (PyVal.dict es), ?_,
      lookup_dictInsert_fresh hfresh⟩ <;>
      simp [place_order, hv, list_orders]

/-- Witness for C3: a store holding product "p1"; quantity 0 is rejected
with the quantity message and quantity 3 is accepted and listed. -/
theorem place_order_quantity_post_witness :
    place_order ⟨[("p1", PyVal.dict [])], []⟩ "o-1"
        (PyVal.dict [("product_id", PyVal.str "p1"),
                     ("quantity", PyVal.int 0)]) =
      (⟨[("p1", PyVal.dict [])], []⟩, 400,
       errBody "Order quantity must be a positive integer") ∧
    (place_order ⟨[("p1", PyVal.dict [])], []⟩ "o-1"
        (PyVal.dict [("product_id", PyVal.str "p1"),
                     ("quantity", PyVal.int 3)])).2.1 = 201 ∧
    ∃ m, (list_orders (place_order ⟨[("p1", PyVal.dict [])], []⟩ "o-1"
        (PyVal.dict [("product_id", PyVal.str "p1"),
                     ("quantity", PyVal.int 3)])).1).2 = PyVal.dict m ∧
      m.lookup "o-1" =
        some (PyVal.dict [("product_id", PyVal.str "p1"),
                          ("quantity", PyVal.int 3)]) :=
  ⟨(place_order_quantity_post ⟨[("p1", PyVal.dict [])], []⟩ "o-1"
      [("product_id", PyVal.str "p1"), ("quantity", PyVal.int 0)]).1
      (by decide) (by decide) (by decide),
   (place_order_quantity_post ⟨[("p1", PyVal.dict [])], []⟩ "o-1"
      [("product_id", PyVal.str "p1"), ("quantity", PyVal.int 3)]).2
      "p1" 3 rfl (by decide) rfl (by decide) (by decide)⟩

/-- C4: `remove_product` on a present identifier returns 200, removes
exactly that entry (that key now absent, every other key unchanged), and a
second delete of the same identifier then returns 404 "Product not
found"; on an absent identifier it returns 404 with the store unchanged. -/
theorem remove_product_post (st : Store) (pid : String) :
    (hasKey st.products pid = true →
      (remove_product st pid).2.1 = 200 ∧
      (remove_product st pid).2.2 = msgBody "Product removed successfully" ∧
      (remove_product st pid).1.products.lookup pid = Option.none ∧
      (∀ k, k ≠ pid →
        (remove_product st pid).1.products.lookup k = st.products.lookup k) ∧
      (remove_product (remove_product st pid).1 pid).2.1 = 404 ∧
      (remove_product (remove_product st pid).1 pid).2.2 =
        errBody "Product not found") ∧
    (hasKey st.products pid = false →
      remove_product st pid = (st, 404, errBody "Product not found")) := by
  constructor
  · intro h
    refine ⟨?_, ?_, ?_, fun k hk => ?_, ?_, ?_⟩
    · simp [remove_product, h]
    · simp [remove_product, h]
    · simp [remove_product, h, lookup_dictErase_self]
    · simp [remove_product, h, lookup_dictErase_other hk]
    · simp [remove_product, h, hasKey_dictErase_self]
    · simp [remove_product, h, hasKey_dictErase_self]
  · intro h
    simp [remove_product, h]

/-- Witness for C4: deleting "p1" from a one-product store succeeds,
leaves other keys alone, and deleting it again yields 404; deleting from
the empty store yields 404 directly. -/
theorem remove_product_post_witness :
    (remove_product ⟨[("p1", PyVal.int 0)], []⟩ "p1").2.1 = 200 ∧
    (remove_product ⟨[("p1", PyVal.int 0)], []⟩ "p1").1.products.lookup "p1" =
      Option.none ∧
    (remove_product ⟨[("p1", PyVal.int 0)], []⟩ "p1").1.products.lookup "p2" =
      ([("p1", PyVal.int 0)] : List (String × PyVal)).lookup "p2" ∧
    (remove_product (remove_product ⟨[("p1", PyVal.int 0)], []⟩ "p1").1
        "p1").2.1 = 404 ∧
    remove_product ⟨[], []⟩ "p1" = (⟨[], []⟩, 404, errBody "Product not found") :=
  ⟨((remove_product_post ⟨[("p1", PyVal.int 0)], []⟩ "p1").1 (by decide)).1,
   ((remove_product_post ⟨[("p1", PyVal.int 0)], []⟩ "p1").1 (by decide)).2.2.1,
   ((remove_product_post ⟨[("p1", PyVal.int 0)], []⟩ "p1").1
      (by decide)).2.2.2.1 "p2" (by decide),
   ((remove_product_post ⟨[("p1", PyVal.int 0)], []⟩ "p1").1
      (by decide)).2.2.2.2.1,
   (remove_product_post ⟨[], []⟩ "p1").2 (by decide)⟩

/-- C5: for every order payload with both fields whose `product_id` is not
a current key of the product mapping (in particular not a string, never
created, or already deleted), `place_order` returns 400 with "Invalid
product ID" and the store — orders included — is exactly unchanged. -/
theorem place_order_unknown_product (st : Store) (newId : String)
    (es : List (String × PyVal))
    (hstruct : orderStructOk (PyVal.dict es) = true)
    (habs : ∀ s, pyGet (PyVal.dict es) "product_id" = PyVal.str s →
      hasKey st.products s = false) :
    place_order st newId (PyVal.dict es) =
      (st, 400, errBody "Invalid product ID") := by
  have hpid : productIdOk st.products (pyGet (PyVal.dict es) "product_id") = false := by
    cases hv : pyGet (PyVal.dict es) "product_id"
    case str s => simpa [productIdOk] using habs s hv
    all_goals rfl
  simp [place_order, vo_fail_pid hstruct hpid]

/-- Witness for C5: the product "p1" is created, then deleted; an order
for "p1" against the resulting store is rejected with "Invalid product
ID" and the store is unchanged. -/
theorem place_order_unknown_product_witness :
    place_order (remove_product ⟨[("p1", PyVal.int 0)], []⟩ "p1").1 "o-1"
        (PyVal.dict [("product_id", PyVal.str "p1"),
                     ("quantity", PyVal.int 2)]) =
      ((remove_product ⟨[("p1", PyVal.int 0)], []⟩ "p1").1, 400,
       errBody "Invalid product ID") :=
  place_order_unknown_product
    (remove_product ⟨[("p1", PyVal.int 0)], []⟩ "p1").1 "o-1"
    [("product_id", PyVal.str "p1"), ("quantity", PyVal.int 2)]
    (by decide)
    (fun s hs => by
      injection hs with h
      subst h
      decide)

/-- C6: `remove_product` never touches the orders mapping: whether it
returns 200 or 404, the orders are exactly unchanged and `list_orders`
gives the same response before and after. -/
theorem remove_product_preserves_orders (st : Store) (pid : String) :
    (remove_product st pid).1.orders = st.orders ∧
    list_orders (remove_product st pid).1 = list_orders st := by
  cases h : hasKey st.products pid <;>
    simp [remove_product, h, list_orders]

/-- C7: both validators apply their checks in the fixed order
structural, first field (name / product_id), second field (price /
quantity), and surface exactly the message of the first violated rule,
regardless of whether later rules are also violated; when no rule is
violated they pass. -/
theorem validation_first_violation (p : PyVal)
    (prods : List (String × PyVal)) (o : PyVal) :
    (prodStructOk p = false →
      validate_product p =
        some "Product must be a dictionary with 'name' and 'price' fields") ∧
    (prodStructOk p = true → nameOk (pyGet p "name") = false →
      validate_product p = some "Product name must be a non-empty string") ∧
    (prodStructOk p = true → nameOk (pyGet p "name") = true →
      priceOk (pyGet p "price") = false →
      validate_product p = some "Product price must be a positive number") ∧
    (prodStructOk p = true → nameOk (pyGet p "name") = true →
      priceOk (pyGet p "price") = true →
      validate_product p = Option.none) ∧
    (orderStructOk o = false →
      validate_order prods o =
        some "Order must be a dictionary with 'product_id' and 'quantity' fields") ∧
    (orderStructOk o = true →
      productIdOk prods (pyGet o "product_id") = false →
      validate_order prods o = some "Invalid product ID") ∧
    (orderStructOk o = true →
      productIdOk prods (pyGet o "product_id") = true →
      quantityOk (pyGet o "quantity") = false →
      validate_order prods o = some "Order quantity must be a positive integer") ∧
    (orderStructOk o = true →
      productIdOk prods (pyGet o "product_id") = true →
      quantityOk (pyGet o "quantity") = true →
      validate_order prods o = Option.none) :=
  ⟨fun h1 => vp_fail_struct h1,
   fun h1 h2 => vp_fail_name h1 h2,
   fun h1 h2 h3 => vp_fail_price h1 h2 h3,
   fun h1 h2 h3 => vp_pass h1 h2 h3,
   fun h1 => vo_fail_struct h1,
   fun h1 h2 => vo_fail_pid h1 h2,
   fun h1 h2 h3 => vo_fail_qty h1 h2 h3,
   fun h1 h2 h3 => vo_pass h1 h2 h3⟩

/-- Witness for C7: a product payload violating both the name rule and
the price rule yields the name message; an order payload violating both
the product-id rule and the quantity rule yields the product-id
message. -/
theorem validation_first_violation_witness :
    validate_product
        (PyVal.dict [("name", PyVal.str ""), ("price", PyVal.int 0)]) =
      some "Product name must be a non-empty string" ∧
    validate_order []
        (PyVal.dict [("product_id", PyVal.str "p9"),
                     ("quantity", PyVal.int 0)]) =
      some "Invalid product ID" :=
  ⟨(validation_first_violation
      (PyVal.dict [("name", PyVal.str ""), ("price", PyVal.int 0)]) []
      (PyVal.int 0)).2.1 (by decide) (by decide),
   (validation_first_violation (PyVal.int 0) []
      (PyVal.dict [("product_id", PyVal.str "p9"),
                   ("quantity", PyVal.int 0)])).2.2.2.2.2.1
      (by decide) (by decide)⟩

/-- Counterexample to C8 as stated: `validate_order` reads the Store's
product mapping (line 34), so the same order input passes in a store
where product "p1" exists and fails with "Invalid product ID" in an
empty store — two Store states, two different outcomes. -/
theorem validate_order_reads_store :
    validate_order [("p1", PyVal.dict [])]
        (PyVal.dict [("product_id", PyVal.str "p1"),
                     ("quantity", PyVal.int 2)]) = Option.none ∧
    validate_order []
        (PyVal.dict [("product_id", PyVal.str "p1"),
                     ("quantity", PyVal.int 2)]) =
      some "Invalid product ID" :=
  ⟨rfl, rfl⟩

/-- C8 (amended): `validate_product` is a pure function of its input —
in particular the accept/reject decision of `add_product` is independent
of the Store and of the generated identifier; `validate_order` is a pure
function of its input and the product mapping it is given, and depends on
that mapping only through which keys are present. Neither mutates the
Store. -/
theorem validation_purity :
    (∀ (st1 st2 : Store) (id1 id2 : String) (p : PyVal),
      (add_product st1 id1 p).2.1 = (add_product st2 id2 p).2.1) ∧
    (∀ (prods1 prods2 : List (String × PyVal)) (o : PyVal),
      (∀ k, hasKey prods1 k = hasKey prods2 k) →
      validate_order prods1 o = validate_order prods2 o) := by
  constructor
  · intro st1 st2 id1 id2 p
    cases hv : validate_product p <;> simp [add_product, hv]
  · intro prods1 prods2 o hkeys
    have hpid : productIdOk prods1 (pyGet o "product_id") =
        productIdOk prods2 (pyGet o "product_id") := by
      cases pyGet o "product_id"
      case str s => simpa [productIdOk] using hkeys s
      all_goals rfl
    simp [validate_order, hpid]

/-- Witness for C8 (amended): the add-product status is the same across
two different stores and identifiers, and two stores holding product
"p1" with different records validate the same order identically. -/
theorem validation_purity_witness :
    (add_product ⟨[("a", PyVal.int 1)], []⟩ "x" (PyVal.int 0)).2.1 =
      (add_product ⟨[], [("z", PyVal.int 2)]⟩ "y" (PyVal.int 0)).2.1 ∧
    validate_order [("p1", PyVal.int 1)]
        (PyVal.dict [("product_id", PyVal.str "p1"),
                     ("quantity", PyVal.int 2)]) =
      validate_order [("p1", PyVal.int 7)]
        (PyVal.dict [("product_id", PyVal.str "p1"),
                     ("quantity", PyVal.int 2)]) :=
  ⟨validation_purity.1 ⟨[("a", PyVal.int 1)], []⟩ ⟨[], [("z", PyVal.int 2)]⟩
      "x" "y" (PyVal.int 0),
   validation_purity.2 [("p1", PyVal.int 1)] [("p1", PyVal.int 7)]
      (PyVal.dict [("product_id", PyVal.str "p1"),
                   ("quantity", PyVal.int 2)])
      (fun _ => rfl)⟩

/-- C9: `add_product` stores the submitted record verbatim, so a valid
payload carrying any further key beyond `name` and `price` is accepted
with 201, and `list_products` afterwards returns the record with that
extra key still mapped to its submitted value. -/
theorem add_product_extra_keys (st : Store) (newId : String)
    (es : List (String × PyVal)) (nm : String) (pr : PyVal)
    (k : String) (v : PyVal)
    (hfresh : hasKey st.products newId = false)
    (hname : es.lookup "name" = some (PyVal.str nm))
    (hnm : pyStrip nm ≠ "")
    (hprice : es.lookup "price" = some pr)
    (hnum : isNumInstance pr = true)
    (hpos : 0 < pyNumVal pr)
    (_hk1 : k ≠ "name") (_hk2 : k ≠ "price")
    (hextra : es.lookup k = some v) :
    (add_product st newId (PyVal.dict es)).2.1 = 201 ∧
    ∃ m, (list_products (add_product st newId (PyVal.dict es)).1).2 =
        PyVal.dict m ∧
      ∃ stored, m.lookup newId = some stored ∧
        stored = PyVal.dict es ∧ pyGet stored k = v := by
  have h2 : nameOk (pyGet (PyVal.dict es) "name") = true := by
    rw [pyGet_dict_of_lookup hname]; exact nameOk_of_strip hnm
  have h3 : priceOk (pyGet (PyVal.dict es) "price") = true := by
    rw [pyGet_dict_of_lookup hprice]; exact priceOk_of_pos hnum hpos
  have hv : validate_product (PyVal.dict es) = Option.none :=
    vp_pass (prodStructOk_of_lookup hname hprice) h2 h3
  refine ⟨?_, dictInsert st.products newId (PyVal.dict es), ?_,
    PyVal.dict es, lookup_dictInsert_fresh hfresh, rfl,
    pyGet_dict_of_lookup hextra⟩ <;>
    simp [add_product, hv, list_products]

/-- Witness for C9: a payload with the extra key "color" is accepted and
the stored record still carries `color = "red"`. -/
theorem add_product_extra_keys_witness :
    (add_product ⟨[], []⟩ "id-3"
      (PyVal.dict [("name", PyVal.str "Widget"), ("price", PyVal.int 10),
                   ("color", PyVal.str "red")])).2.1 = 201 ∧
    ∃ m, (list_products (add_product ⟨[], []⟩ "id-3"
        (PyVal.dict [("name", PyVal.str "Widget"), ("price", PyVal.int 10),
                     ("color", PyVal.str "red")])).1).2 = PyVal.dict m ∧
      ∃ stored, m.lookup "id-3" = some stored ∧
        stored = PyVal.dict [("name", PyVal.str "Widget"),
                             ("price", PyVal.int 10),
                             ("color", PyVal.str "red")] ∧
        pyGet stored "color" = PyVal.str "red" :=
  add_product_extra_keys ⟨[], []⟩ "id-3"
    [("name", PyVal.str "Widget"), ("price", PyVal.int 10),
     ("color", PyVal.str "red")] "Widget" (PyVal.int 10) "color"
    (PyVal.str "red") (by decide) rfl (by decide) rfl rfl (by decide)
    (by decide) (by decide) rfl

/-- C10: Python booleans pass the `isinstance(..., int)` checks, so a
product with price `True` is validated and added with 201, and an order
for an existing product with quantity `True` is validated and placed
with 201. -/
theorem bool_true_passes_numeric_checks :
    validate_product (PyVal.dict [("name", PyVal.str "Widget"),
                                  ("price", PyVal.bool true)]) = Option.none ∧
    (add_product ⟨[], []⟩ "id-4"
      (PyVal.dict [("name", PyVal.str "Widget"),
                   ("price", PyVal.bool true)])).2.1 = 201 ∧
    validate_order [("p1", PyVal.dict [])]
      (PyVal.dict [("product_id", PyVal.str "p1"),
                   ("quantity", PyVal.bool true)]) = Option.none ∧
    (place_order ⟨[("p1", PyVal.dict [])], []⟩ "o-4"
      (PyVal.dict [("product_id", PyVal.str "p1"),
                   ("quantity", PyVal.bool true)])).2.1 = 201 :=
  ⟨rfl, rfl, rfl, rfl⟩

end OrderProcessing
